import Mathlib

/-!
Verification of the autonav rust-rewrite core against its design spec.

Shallow embedding of the relevant Rust code:
- crates/autonav-communication: schemas (Source, NavigatorResponse, PluginConfig)
  and validation (validate_sources_exist, validate_confidence, is_valid_source);
- crates/autonav/src/tools.rs: merge_json, update_plugin_config;
- crates/autonav/src/adapter.rs: the agentic loop (ClaudeAdapter::query),
  handle_tool_calls, execute_tool;
- crates/autonav-plugins/src/manager.rs: load_from_config, register, listen_all;
- crates/autonav/src/pack_installer.rs: parse_github_url.

JSON numbers (Rust f64) are modelled as rationals; external effects (the
filesystem, the LLM endpoint, plugin initialization and polling, wall-clock
time) are modelled as explicit oracle parameters, so every function here is
a pure, executable translation of the corresponding Rust control flow.
-/

namespace Autonav

/-- Model of serde_json::Value. Objects are association lists (the Rust map
has unique keys; lookup takes the first match), numbers are rationals. -/
inductive Json where
  | null : Json
  | bool (b : Bool) : Json
  | num (q : Rat) : Json
  | str (s : String) : Json
  | arr (xs : List Json) : Json
  | obj (fields : List (String × Json)) : Json

/-- serde_json Value::get on an object: look the key up (first match). -/
def Json.get (j : Json) (key : String) : Option Json :=
  match j with
  | .obj fields => lookupField fields key
  | _ => none
where
  lookupField : List (String × Json) → String → Option Json
    | [], _ => none
    | (k, v) :: rest, key => if k = key then some v else lookupField rest key

/-- serde_json Value::as_str: Some for strings only. -/
def Json.asStr : Json → Option String
  | .str s => some s
  | _ => none

/-- serde_json Value::as_f64: Some for numbers only (all numeric variants
convert to f64). -/
def Json.asF64 : Json → Option Rat
  | .num q => some q
  | _ => none

/-- serde_json Value::as_bool. -/
def Json.asBool : Json → Option Bool
  | .bool b => some b
  | _ => none

/-- serde_json Map::insert: replace the value of an existing key, otherwise
add the binding at the end. -/
def insertField (fields : List (String × Json)) (key : String) (v : Json) :
    List (String × Json) :=
  match fields with
  | [] => [(key, v)]
  | (k, w) :: rest =>
    if k = key then (k, v) :: rest else (k, w) :: insertField rest key v

/-- merge_json from crates/autonav/src/tools.rs: shallow merge of source into
target when both are objects, otherwise target is left unchanged. The Rust
function returns Result but never errs; we return the merged value. -/
def mergeJson (target source : Json) : Json :=
  match target, source with
  | .obj tfields, .obj sfields =>
    .obj (sfields.foldl (fun acc kv => insertField acc kv.1 kv.2) tfields)
  | t, _ => t

/-- CommunicationError from crates/autonav-communication/src/errors.rs
(variants the embedded functions construct). -/
inductive CommunicationError where
  | sourceNotFound (file : String) : CommunicationError
  | confidenceBelowThreshold (got expected : Rat) : CommunicationError
deriving DecidableEq

/-- Source from crates/autonav-communication/src/schemas/response.rs.
The Rust field `section` is renamed `sectionName` (section is a Lean
keyword); its serde key remains "section". -/
structure Source where
  file : String
  sectionName : String
  relevance : String
deriving DecidableEq

/-- NavigatorResponse from crates/autonav-communication/src/schemas/response.rs.
confidence (f64) is a rational; timestamp (DateTime) an opaque string;
metadata an association list. -/
structure NavigatorResponse where
  protocolVersion : String
  query : String
  answer : String
  sources : List Source
  confidence : Rat
  metadata : List (String × Json)
  timestamp : Option String

/-- PROTOCOL_VERSION from crates/autonav-communication/src/version.rs. -/
def PROTOCOL_VERSION : String := "1.0.0"

/-- NavigatorResponse::new: fresh response with no sources, empty metadata
and the current time as timestamp (time passed explicitly). -/
def NavigatorResponse.new (query answer : String) (confidence : Rat)
    (now : String) : NavigatorResponse :=
  { protocolVersion := PROTOCOL_VERSION
    query := query
    answer := answer
    sources := []
    confidence := confidence
    metadata := []
    timestamp := some now }

/-- Rust str::starts_with, computed on the character list. -/
def strStartsWith (s pat : String) : Bool :=
  pat.data.isPrefixOf s.data

/-- Rust str::is_empty, computed on the character list. -/
def strIsEmpty (s : String) : Bool :=
  s.data.isEmpty

/-- Rust std Path::join as used on knowledge_base_path.join(source.file):
an absolute right-hand path replaces the base, otherwise the file name is
appended below the base. -/
def pathJoin (base p : String) : String :=
  if strStartsWith p "/" then p else base ++ "/" ++ p

/-- validate_sources_exist from crates/autonav-communication/src/validation.rs.
The filesystem is an oracle mapping a path to whether it exists; the first
source whose joined path does not exist yields SourceNotFound. -/
def validateSourcesExist (fs : String → Bool)
    (response : NavigatorResponse) (knowledgeBasePath : String) :
    Except CommunicationError Unit :=
  go response.sources
where
  go : List Source → Except CommunicationError Unit
    | [] => .ok ()
    | s :: rest =>
      if fs (pathJoin knowledgeBasePath s.file) then go rest
      else .error (.sourceNotFound s.file)

/-- validate_confidence from crates/autonav-communication/src/validation.rs:
reject exactly when confidence is strictly below the threshold. -/
def validateConfidence (response : NavigatorResponse) (threshold : Rat) :
    Except CommunicationError Unit :=
  if response.confidence < threshold then
    .error (.confidenceBelowThreshold response.confidence threshold)
  else
    .ok ()

/-- Substring test on character lists (Rust str::contains with a literal
pattern). -/
def listContainsSub (pat : List Char) : List Char → Bool
  | [] => pat.isEmpty
  | c :: rest => pat.isPrefixOf (c :: rest) || listContainsSub pat rest

/-- Rust str::contains for string patterns. -/
def strContainsSub (s pat : String) : Bool :=
  listContainsSub pat.data s.data

/-- is_valid_source from crates/autonav-communication/src/validation.rs:
nonempty, no ".." anywhere, not starting with a slash. -/
def isValidSource (source : Source) : Bool :=
  if strIsEmpty source.file then false
  else if strContainsSub source.file ".." then false
  else if strStartsWith source.file "/" then false
  else true

/-- SummaryFrequency from crates/autonav-communication/src/schemas/plugins.rs. -/
inductive SummaryFrequency where
  | realtime : SummaryFrequency
  | hourly : SummaryFrequency
  | daily : SummaryFrequency
deriving DecidableEq

/-- SlackConfig from crates/autonav-communication/src/schemas/plugins.rs
(serde rename_all camelCase). -/
structure SlackConfig where
  enabled : Bool
  workspace : String
  channels : List String
  threadNotifications : Bool
  summaryFrequency : SummaryFrequency
  botUserId : Option String
  token : Option String
deriving DecidableEq

/-- Default for SlackConfig from plugins.rs. -/
def SlackConfig.default : SlackConfig :=
  { enabled := false
    workspace := ""
    channels := []
    threadNotifications := true
    summaryFrequency := .daily
    botUserId := none
    token := none }

/-- SignalConfig from crates/autonav-communication/src/schemas/plugins.rs. -/
structure SignalConfig where
  enabled : Bool
  phoneNumber : String
  checkInSchedule : String
  checkInTime : Option String
  notificationTypes : List String
  nextCheckIn : Option String
deriving DecidableEq

/-- Default for SignalConfig from plugins.rs. -/
def SignalConfig.default : SignalConfig :=
  { enabled := false
    phoneNumber := ""
    checkInSchedule := "daily"
    checkInTime := none
    notificationTypes := ["urgent", "daily-summary"]
    nextCheckIn := none }

/-- GitHubConfig from crates/autonav-communication/src/schemas/plugins.rs.
poll_interval_minutes (u32) is a Nat; no embedded operation overflows it. -/
structure GitHubConfig where
  enabled : Bool
  token : Option String
  owner : String
  repo : String
  watchIssues : Bool
  watchPullRequests : Bool
  watchCommits : Bool
  pollIntervalMinutes : Nat
  repositories : List String
  issueLabels : List String
  autoRespond : Bool
deriving DecidableEq

/-- Default for GitHubConfig from plugins.rs. -/
def GitHubConfig.default : GitHubConfig :=
  { enabled := false
    token := none
    owner := ""
    repo := ""
    watchIssues := false
    watchPullRequests := false
    watchCommits := false
    pollIntervalMinutes := 5
    repositories := []
    issueLabels := []
    autoRespond := false }

/-- EmailConfig from crates/autonav-communication/src/schemas/plugins.rs. -/
structure EmailConfig where
  enabled : Bool
  addresses : List String
  digestFrequency : String
deriving DecidableEq

/-- Default for EmailConfig from plugins.rs. -/
def EmailConfig.default : EmailConfig :=
  { enabled := false
    addresses := []
    digestFrequency := "weekly" }

/-- FileWatcherConfig from crates/autonav-communication/src/schemas/plugins.rs.
poll_interval (u64) is a Nat. -/
structure FileWatcherConfig where
  enabled : Bool
  paths : List String
  patterns : List String
  ignorePatterns : List String
  pollInterval : Nat
deriving DecidableEq

/-- Default for FileWatcherConfig from plugins.rs. -/
def FileWatcherConfig.default : FileWatcherConfig :=
  { enabled := false
    paths := []
    patterns := []
    ignorePatterns := []
    pollInterval := 1000 }

/-- PluginConfig from crates/autonav-communication/src/schemas/plugins.rs:
one optional sub-record per built-in plugin kind plus the flattened map of
custom plugin entries. -/
structure PluginConfig where
  workspaces : List String
  slack : Option SlackConfig
  signal : Option SignalConfig
  github : Option GitHubConfig
  email : Option EmailConfig
  fileWatcher : Option FileWatcherConfig
  custom : List (String × Json)

/-- Default (all-absent) PluginConfig. -/
def PluginConfig.default : PluginConfig :=
  { workspaces := []
    slack := none
    signal := none
    github := none
    email := none
    fileWatcher := none
    custom := [] }

/-- Decode a serde #[serde(default)] bool field: absent means the default,
present must be a JSON bool. -/
def decodeBoolD (j : Json) (key : String) (dflt : Bool) : Option Bool :=
  match j.get key with
  | none => some dflt
  | some v => v.asBool

/-- Decode a serde #[serde(default)] string field. -/
def decodeStrD (j : Json) (key : String) (dflt : String) : Option String :=
  match j.get key with
  | none => some dflt
  | some v => v.asStr

/-- Decode an Option<String> field: absent or null is None, a string is
Some, anything else is a deserialization error. -/
def decodeOptStr (j : Json) (key : String) : Option (Option String) :=
  match j.get key with
  | none => some none
  | some .null => some none
  | some (.str s) => some (some s)
  | some _ => none

/-- Decode a #[serde(default)] Vec<String> field. -/
def decodeStrListD (j : Json) (key : String) : Option (List String) :=
  match j.get key with
  | none => some []
  | some (.arr xs) => xs.mapM Json.asStr
  | some _ => none

/-- Decode a #[serde(default = ...)] unsigned-integer field (u32/u64):
present values must be integral, nonnegative and within the width bound. -/
def decodeNatD (j : Json) (key : String) (dflt bound : Nat) : Option Nat :=
  match j.get key with
  | none => some dflt
  | some (.num q) =>
    if q.den = 1 && 0 ≤ q.num && q.num < bound then some q.num.toNat else none
  | some _ => none

/-- Serialize SummaryFrequency (serde rename_all lowercase). -/
def SummaryFrequency.toJson : SummaryFrequency → Json
  | .realtime => .str "realtime"
  | .hourly => .str "hourly"
  | .daily => .str "daily"

/-- Deserialize SummaryFrequency. -/
def SummaryFrequency.fromJson : Json → Option SummaryFrequency
  | .str "realtime" => some .realtime
  | .str "hourly" => some .hourly
  | .str "daily" => some .daily
  | _ => none

/-- Serialize SlackConfig the way serde does (camelCase keys, None fields
skipped). -/
def slackToJson (c : SlackConfig) : Json :=
  .obj ([("enabled", .bool c.enabled),
         ("workspace", .str c.workspace),
         ("channels", .arr (c.channels.map Json.str)),
         ("threadNotifications", .bool c.threadNotifications),
         ("summaryFrequency", c.summaryFrequency.toJson)]
    ++ (match c.botUserId with
        | some s => [("botUserId", Json.str s)]
        | none => [])
    ++ (match c.token with
        | some s => [("token", Json.str s)]
        | none => []))

/-- Deserialize SlackConfig (defaulted fields may be absent; unknown keys
are ignored, as serde does without deny_unknown_fields). -/
def slackFromJson (j : Json) : Option SlackConfig :=
  match j with
  | .obj _ =>
    match decodeBoolD j "enabled" false,
          decodeStrD j "workspace" "",
          decodeStrListD j "channels",
          decodeBoolD j "threadNotifications" true,
          (match j.get "summaryFrequency" with
           | none => some SummaryFrequency.daily
           | some v => SummaryFrequency.fromJson v),
          decodeOptStr j "botUserId",
          decodeOptStr j "token" with
    | some enabled, some workspace, some channels, some threadNotifications,
      some summaryFrequency, some botUserId, some token =>
      some { enabled, workspace, channels, threadNotifications,
             summaryFrequency, botUserId, token }
    | _, _, _, _, _, _, _ => none
  | _ => none

/-- Serialize SignalConfig. -/
def signalToJson (c : SignalConfig) : Json :=
  .obj ([("enabled", .bool c.enabled),
         ("phoneNumber", .str c.phoneNumber),
         ("checkInSchedule", .str c.checkInSchedule)]
    ++ (match c.checkInTime with
        | some s => [("checkInTime", Json.str s)]
        | none => [])
    ++ [("notificationTypes", .arr (c.notificationTypes.map Json.str))]
    ++ (match c.nextCheckIn with
        | some s => [("nextCheckIn", Json.str s)]
        | none => []))

/-- Deserialize SignalConfig. -/
def signalFromJson (j : Json) : Option SignalConfig :=
  match j with
  | .obj _ =>
    match decodeBoolD j "enabled" false,
          decodeStrD j "phoneNumber" "",
          decodeStrD j "checkInSchedule" "daily",
          decodeOptStr j "checkInTime",
          decodeStrListD j "notificationTypes",
          decodeOptStr j "nextCheckIn" with
    | some enabled, some phoneNumber, some checkInSchedule, some checkInTime,
      some notificationTypes, some nextCheckIn =>
      some { enabled, phoneNumber, checkInSchedule, checkInTime,
             notificationTypes, nextCheckIn }
    | _, _, _, _, _, _ => none
  | _ => none

/-- Serialize GitHubConfig. -/
def githubToJson (c : GitHubConfig) : Json :=
  .obj ([("enabled", .bool c.enabled)]
    ++ (match c.token with
        | some s => [("token", Json.str s)]
        | none => [])
    ++ [("owner", .str c.owner),
        ("repo", .str c.repo),
        ("watchIssues", .bool c.watchIssues),
        ("watchPullRequests", .bool c.watchPullRequests),
        ("watchCommits", .bool c.watchCommits),
        ("pollIntervalMinutes", .num c.pollIntervalMinutes)]
    ++ (if c.repositories.isEmpty then []
        else [("repositories", .arr (c.repositories.map Json.str))])
    ++ (if c.issueLabels.isEmpty then []
        else [("issueLabels", .arr (c.issueLabels.map Json.str))])
    ++ [("autoRespond", .bool c.autoRespond)])

/-- Deserialize GitHubConfig. -/
def githubFromJson (j : Json) : Option GitHubConfig :=
  match j with
  | .obj _ =>
    match decodeBoolD j "enabled" false,
          decodeOptStr j "token",
          decodeStrD j "owner" "",
          decodeStrD j "repo" "",
          decodeBoolD j "watchIssues" false,
          decodeBoolD j "watchPullRequests" false,
          decodeBoolD j "watchCommits" false,
          decodeNatD j "pollIntervalMinutes" 5 (2 ^ 32),
          decodeStrListD j "repositories",
          decodeStrListD j "issueLabels",
          decodeBoolD j "autoRespond" false with
    | some enabled, some token, some owner, some repo, some watchIssues,
      some watchPullRequests, some watchCommits, some pollIntervalMinutes,
      some repositories, some issueLabels, some autoRespond =>
      some { enabled, token, owner, repo, watchIssues, watchPullRequests,
             watchCommits, pollIntervalMinutes, repositories, issueLabels,
             autoRespond }
    | _, _, _, _, _, _, _, _, _, _, _ => none
  | _ => none

/-- Serialize EmailConfig. -/
def emailToJson (c : EmailConfig) : Json :=
  .obj [("enabled", .bool c.enabled),
        ("addresses", .arr (c.addresses.map Json.str)),
        ("digestFrequency", .str c.digestFrequency)]

/-- Deserialize EmailConfig. -/
def emailFromJson (j : Json) : Option EmailConfig :=
  match j with
  | .obj _ =>
    match decodeBoolD j "enabled" false,
          decodeStrListD j "addresses",
          decodeStrD j "digestFrequency" "weekly" with
    | some enabled, some addresses, some digestFrequency =>
      some { enabled, addresses, digestFrequency }
    | _, _, _ => none
  | _ => none

/-- Serialize FileWatcherConfig. -/
def fileWatcherToJson (c : FileWatcherConfig) : Json :=
  .obj [("enabled", .bool c.enabled),
        ("paths", .arr (c.paths.map Json.str)),
        ("patterns", .arr (c.patterns.map Json.str)),
        ("ignorePatterns", .arr (c.ignorePatterns.map Json.str)),
        ("pollInterval", .num c.pollInterval)]

/-- Deserialize FileWatcherConfig. -/
def fileWatcherFromJson (j : Json) : Option FileWatcherConfig :=
  match j with
  | .obj _ =>
    match decodeBoolD j "enabled" false,
          decodeStrListD j "paths",
          decodeStrListD j "patterns",
          decodeStrListD j "ignorePatterns",
          decodeNatD j "pollInterval" 1000 (2 ^ 64) with
    | some enabled, some paths, some patterns, some ignorePatterns,
      some pollInterval =>
      some { enabled, paths, patterns, ignorePatterns, pollInterval }
    | _, _, _, _, _ => none
  | _ => none

/-- AutonavError from crates/autonav/src/errors.rs (the variants the
embedded functions construct). -/
inductive AutonavError where
  | toolError (msg : String) : AutonavError
  | queryError (msg : String) : AutonavError
  | claudeApiError (msg : String) : AutonavError
  | jsonError (msg : String) : AutonavError
deriving DecidableEq

/-- State of the navigator's plugin-configuration file as the tool
functions observe it: no configured path at all, a path whose file is
absent, a file that exists but fails to parse, or a parsed configuration. -/
inductive ConfigFile where
  | noPath : ConfigFile
  | absent : ConfigFile
  | invalid : ConfigFile
  | loaded (c : PluginConfig) : ConfigFile

/-- The per-plugin update arms of update_plugin_config in
crates/autonav/src/tools.rs. Each arm takes the current sub-record (or its
default), calls merge_json on a serialized temporary of it together with
the updates, then stores the serialize/deserialize round trip of `current`
back into the configuration. The Rust code passes
`&mut serde_json::to_value(&mut current)?` to merge_json, so the merged
temporary is dropped at the end of that statement; `mergedTmp` below is
likewise never used afterwards. -/
def applyPluginUpdate (config : PluginConfig) (plugin : String)
    (updates : Json) : Except AutonavError PluginConfig :=
  if plugin = "slack" then
    let current := config.slack.getD SlackConfig.default
    let mergedTmp := mergeJson (slackToJson current) updates
    let _ := mergedTmp
    match slackFromJson (slackToJson current) with
    | some c2 => .ok { config with slack := some c2 }
    | none => .error (.jsonError "invalid slack config")
  else if plugin = "signal" then
    let current := config.signal.getD SignalConfig.default
    let mergedTmp := mergeJson (signalToJson current) updates
    let _ := mergedTmp
    match signalFromJson (signalToJson current) with
    | some c2 => .ok { config with signal := some c2 }
    | none => .error (.jsonError "invalid signal config")
  else if plugin = "github" then
    let current := config.github.getD GitHubConfig.default
    let mergedTmp := mergeJson (githubToJson current) updates
    let _ := mergedTmp
    match githubFromJson (githubToJson current) with
    | some c2 => .ok { config with github := some c2 }
    | none => .error (.jsonError "invalid github config")
  else if plugin = "email" then
    let current := config.email.getD EmailConfig.default
    let mergedTmp := mergeJson (emailToJson current) updates
    let _ := mergedTmp
    match emailFromJson (emailToJson current) with
    | some c2 => .ok { config with email := some c2 }
    | none => .error (.jsonError "invalid email config")
  else if plugin = "file_watcher" then
    let current := config.fileWatcher.getD FileWatcherConfig.default
    let mergedTmp := mergeJson (fileWatcherToJson current) updates
    let _ := mergedTmp
    match fileWatcherFromJson (fileWatcherToJson current) with
    | some c2 => .ok { config with fileWatcher := some c2 }
    | none => .error (.jsonError "invalid file_watcher config")
  else
    .error (.toolError ("Unknown plugin: " ++ plugin))

/-- update_plugin_config from crates/autonav/src/tools.rs. The on-disk file
is passed in explicitly as a ConfigFile; on success the result carries the
configuration that config.save writes back together with the JSON returned
to the model. -/
def updatePluginConfig (input : Json) (file : ConfigFile) :
    Except AutonavError (PluginConfig × Json) :=
  match (input.get "plugin").bind Json.asStr with
  | none => .error (.toolError "Missing plugin field")
  | some plugin =>
    match input.get "updates" with
    | none => .error (.toolError "Missing updates field")
    | some updates =>
      let reason := ((input.get "reason").bind Json.asStr).getD
        "No reason provided"
      match file with
      | .noPath => .error (.toolError "No plugins config path")
      | .invalid => .error (.toolError "Failed to load config")
      | .absent =>
        updateLoaded PluginConfig.default plugin updates reason
      | .loaded config =>
        updateLoaded config plugin updates reason
where
  updateLoaded (config : PluginConfig) (plugin : String) (updates : Json)
      (reason : String) : Except AutonavError (PluginConfig × Json) :=
    match applyPluginUpdate config plugin updates with
    | .error e => .error e
    | .ok config2 =>
      .ok (config2,
        .obj [("success", .bool true),
              ("message", .str ("Updated " ++ plugin ++ " configuration")),
              ("reason", .str reason)])

/-- What the spec describes update_plugin_config as doing to the named
sub-record: the partial update shallow-merged into the current sub-record.
Modelled from the spec, for comparison with the saved result (only the
slack kind, which the spec's merge scenario uses). -/
def specMergedSlack (config : PluginConfig) (updates : Json) : Json :=
  mergeJson (slackToJson (config.slack.getD SlackConfig.default)) updates

/-- PluginError from crates/autonav-plugins/src/errors.rs (the variants the
embedded manager constructs). -/
inductive PluginError where
  | notFound (name : String) : PluginError
  | initializationFailed (msg : String) : PluginError
  | notEnabled (name : String) : PluginError
deriving DecidableEq

/-- PluginEvent from crates/autonav-plugins/src/plugin.rs. Numbers (u64)
are Nats. -/
inductive PluginEvent where
  | slackMessage (channel user text ts : String)
      (threadTs : Option String) : PluginEvent
  | slackMention (channel user text ts : String) : PluginEvent
  | slackReaction (channel user reaction itemTs : String) : PluginEvent
  | gitHubIssue (owner repo : String) (number : Nat) (title : String)
      (body : Option String) (action : String) : PluginEvent
  | gitHubPullRequest (owner repo : String) (number : Nat) (title : String)
      (body : Option String) (action : String) : PluginEvent
  | gitHubComment (owner repo : String) (issueNumber : Nat)
      (body user : String) : PluginEvent
  | fileAdded (path : String) : PluginEvent
  | fileChanged (path : String) : PluginEvent
  | fileRemoved (path : String) : PluginEvent
deriving DecidableEq

/-- One registry entry of the PluginManager as listen_all observes it: the
plugin's name, what its is_enabled() returns, and the outcome its listen()
produces this round (the external provider decides the outcome, so it is
part of the state). -/
structure RegisteredPlugin where
  name : String
  enabled : Bool
  listenResult : Except String (List PluginEvent)

/-- PluginManager::listen_all from crates/autonav-plugins/src/manager.rs:
skip disabled plugins, call listen() on each enabled one, extend the event
list on success, log and continue on error. Returns the collected events
together with the names of the plugins that were polled (the observable
trace of listen() invocations). -/
def listenAll : List RegisteredPlugin → List PluginEvent × List String
  | [] => ([], [])
  | p :: rest =>
    if !p.enabled then listenAll rest
    else
      match p.listenResult with
      | .ok events =>
        let (evs, polled) := listenAll rest
        (events ++ evs, p.name :: polled)
      | .error _ =>
        let (evs, polled) := listenAll rest
        (evs, p.name :: polled)

/-- Events a registry entry contributes to listen_all: its batch on
success, nothing on error. -/
def listenEvents (p : RegisteredPlugin) : List PluginEvent :=
  match p.listenResult with
  | .ok events => events
  | .error _ => []

/-- PluginManager::register from crates/autonav-plugins/src/manager.rs:
initialize the plugin (outcome decided by the external provider, passed as
the init oracle), then insert it into the registry; a failed initialize
yields InitializationFailed and no insertion. The registry is the list of
registered plugin names in insertion order. -/
def registerPlugin (init : String → Except String Unit)
    (registry : List String) (name : String) :
    Except PluginError (List String) :=
  match init name with
  | .ok _ => .ok (registry ++ [name])
  | .error e => .error (.initializationFailed (name ++ ": " ++ e))

/-- PluginManager::load_from_config from
crates/autonav-plugins/src/manager.rs: fall back to the default
configuration when the file fails to load, then register the slack, github
and file_watcher kinds in that order, each only if present and enabled.
Each register call is propagated with the question-mark operator, so the
result is the registry reached so far paired with the first failure (if
any). -/
def loadFromConfig (init : String → Except String Unit)
    (loadResult : Except String PluginConfig) :
    List String × Except PluginError Unit :=
  let config :=
    match loadResult with
    | .ok c => c
    | .error _ => PluginConfig.default
  match (match config.slack with
         | some sc => if sc.enabled then registerPlugin init [] "slack"
                      else .ok []
         | none => .ok []) with
  | .error e => ([], .error e)
  | .ok r1 =>
    match (match config.github with
           | some gc => if gc.enabled then registerPlugin init r1 "github"
                        else .ok r1
           | none => .ok r1) with
    | .error e => (r1, .error e)
    | .ok r2 =>
      match (match config.fileWatcher with
             | some fc =>
               if fc.enabled then registerPlugin init r2 "file_watcher"
               else .ok r2
             | none => .ok r2) with
      | .error e => (r2, .error e)
      | .ok r3 => (r3, .ok ())

/-- Sequential registration of a list of plugin kinds with early return on
the first initialization failure, as load_from_config chains its three
kinds: the registry reached so far is paired with the first failure. -/
def loadKinds (init : String → Except String Unit) (reg : List String) :
    List String → List String × Except PluginError Unit
  | [] => (reg, .ok ())
  | k :: ks =>
    match registerPlugin init reg k with
    | .error e => (reg, .error e)
    | .ok r2 => loadKinds init r2 ks

/-- The plugin kinds load_from_config attempts, in its fixed order: slack,
github, file_watcher, each when present and enabled. -/
def enabledKinds (config : PluginConfig) : List String :=
  (match config.slack with
   | some sc => if sc.enabled then ["slack"] else []
   | none => []) ++
  (match config.github with
   | some gc => if gc.enabled then ["github"] else []
   | none => []) ++
  (match config.fileWatcher with
   | some fc => if fc.enabled then ["file_watcher"] else []
   | none => [])

/-- Whether the configuration has an enabled slack sub-record. -/
def slackEnabled (config : PluginConfig) : Bool :=
  match config.slack with
  | some sc => sc.enabled
  | none => false

/-- Whether the configuration has an enabled github sub-record. -/
def githubEnabled (config : PluginConfig) : Bool :=
  match config.github with
  | some gc => gc.enabled
  | none => false

/-- Whether the configuration has an enabled file_watcher sub-record. -/
def fileWatcherEnabled (config : PluginConfig) : Bool :=
  match config.fileWatcher with
  | some fc => fc.enabled
  | none => false

/-- Whether an initialization outcome is a success. -/
def initOk (init : String → Except String Unit) (name : String) : Bool :=
  match init name with
  | .ok _ => true
  | .error _ => false

/-- The message carried by a failed initialization outcome. -/
def initErrMsg (init : String → Except String Unit) (name : String) :
    String :=
  match init name with
  | .ok _ => ""
  | .error e => e

/-- Serialize Source (serde: field names as written; the Rust field is
called section). -/
def sourceToJson (s : Source) : Json :=
  .obj [("file", .str s.file),
        ("section", .str s.sectionName),
        ("relevance", .str s.relevance)]

/-- Deserialize Source: file, section and relevance are all required
strings; unknown keys are ignored. -/
def sourceFromJson (j : Json) : Option Source :=
  match j with
  | .obj _ =>
    match (j.get "file").bind Json.asStr,
          (j.get "section").bind Json.asStr,
          (j.get "relevance").bind Json.asStr with
    | some file, some sectionName, some relevance =>
      some { file, sectionName, relevance }
    | _, _, _ => none
  | _ => none

/-- serde_json::from_value for Vec<Source>: an array whose every element
deserializes as a Source. -/
def sourcesListFromJson (j : Json) : Option (List Source) :=
  match j with
  | .arr xs => xs.mapM sourceFromJson
  | _ => none

/-- Serialize NavigatorResponse the way serde does (camelCase keys, empty
metadata and absent timestamp skipped). -/
def navRespToJson (r : NavigatorResponse) : Json :=
  .obj ([("protocolVersion", .str r.protocolVersion),
         ("query", .str r.query),
         ("answer", .str r.answer),
         ("sources", .arr (r.sources.map sourceToJson)),
         ("confidence", .num r.confidence)]
    ++ (if r.metadata.isEmpty then []
        else [("metadata", .obj r.metadata)])
    ++ (match r.timestamp with
        | some t => [("timestamp", Json.str t)]
        | none => []))

/-- Deserialize NavigatorResponse: query, answer, sources and confidence
are required; protocolVersion defaults to PROTOCOL_VERSION; metadata
defaults to empty; timestamp is optional. -/
def navRespFromJson (j : Json) : Option NavigatorResponse :=
  match j with
  | .obj _ =>
    match decodeStrD j "protocolVersion" PROTOCOL_VERSION,
          (j.get "query").bind Json.asStr,
          (j.get "answer").bind Json.asStr,
          (j.get "sources").bind sourcesListFromJson,
          (j.get "confidence").bind Json.asF64,
          (match j.get "metadata" with
           | none => some []
           | some (.obj fs) => some fs
           | some _ => none),
          decodeOptStr j "timestamp" with
    | some protocolVersion, some query, some answer, some sources,
      some confidence, some metadata, some timestamp =>
      some { protocolVersion, query, answer, sources, confidence,
             metadata, timestamp }
    | _, _, _, _, _, _, _ => none
  | _ => none

/-- ContentBlock from crates/autonav/src/adapter.rs. -/
inductive ContentBlock where
  | text (text : String) : ContentBlock
  | toolUse (id name : String) (input : Json) : ContentBlock
  | toolResult (toolUseId : String) (content : String) : ContentBlock

/-- ToolResult from crates/autonav/src/tools.rs. -/
structure ToolResult where
  toolUseId : String
  toolName : String
  result : Json

/-- MessageContent from crates/autonav/src/adapter.rs. -/
inductive MessageContent where
  | text (s : String) : MessageContent
  | blocks (bs : List ContentBlock) : MessageContent
  | toolResults (rs : List ToolResult) : MessageContent

/-- Message from crates/autonav/src/adapter.rs. -/
structure Message where
  role : String
  content : MessageContent

/-- ApiResponse from crates/autonav/src/adapter.rs: content blocks plus an
optional stop reason. -/
structure ApiResponse where
  content : List ContentBlock
  stopReason : Option String

/-- External context of ClaudeAdapter::execute_tool: the wall-clock time
used for the answer timestamp and the outcomes of the two
self-configuration tools (which read and write the plugin-configuration
file, an external resource, via tools.rs). -/
structure ToolEnv where
  now : String
  getPluginConfigTool : Json → Except AutonavError Json
  updatePluginConfigTool : Json → Except AutonavError Json

/-- ClaudeAdapter::execute_tool from crates/autonav/src/adapter.rs. The
submit_answer branch parses its input (answer required, confidence
defaulting to 0.5, sources degrading to empty), builds a NavigatorResponse
whose query field is left empty, and returns it serialized; the two
configuration tools delegate to tools.rs; any other name is a ToolError. -/
def executeTool (env : ToolEnv) (name : String) (input : Json) :
    Except AutonavError Json :=
  if name = "submit_answer" then
    match (input.get "answer").bind Json.asStr with
    | none => .error (.toolError "Missing answer field")
    | some answer =>
      let confidence := ((input.get "confidence").bind Json.asF64).getD 0.5
      let sources := ((input.get "sources").bind sourcesListFromJson).getD []
      .ok (navRespToJson
        { protocolVersion := PROTOCOL_VERSION
          query := ""
          answer := answer
          sources := sources
          confidence := confidence
          metadata := []
          timestamp := some env.now })
  else if name = "get_plugin_config" then
    env.getPluginConfigTool input
  else if name = "update_plugin_config" then
    env.updatePluginConfigTool input
  else
    .error (.toolError ("Unknown tool: " ++ name))

/-- ClaudeAdapter::handle_tool_calls from crates/autonav/src/adapter.rs:
execute every tool-use block in order, propagating the first error with
the question-mark operator. The second component is the trace of tool
calls actually dispatched to execute_tool (a failing call is dispatched;
everything after it is not). -/
def handleToolCalls (env : ToolEnv) :
    List ContentBlock →
    Except AutonavError (List ToolResult) × List (String × Json)
  | [] => (.ok [], [])
  | .toolUse id name input :: rest =>
    (match executeTool env name input with
     | .error e => (.error e, [(name, input)])
     | .ok out =>
       match handleToolCalls env rest with
       | (.error e, tr) => (.error e, (name, input) :: tr)
       | (.ok results, tr) =>
         (.ok ({ toolUseId := id, toolName := name, result := out } ::
               results),
          (name, input) :: tr))
  | .text _ :: rest => handleToolCalls env rest
  | .toolResult _ _ :: rest => handleToolCalls env rest

/-- The scan over tool results inside ClaudeAdapter::query: the first
result named submit_answer whose payload parses as a NavigatorResponse (a
non-parsing one is skipped, not an error). -/
def findSubmitAnswer : List ToolResult → Option NavigatorResponse
  | [] => none
  | r :: rest =>
    if r.toolName = "submit_answer" then
      match navRespFromJson r.result with
      | some resp => some resp
      | none => findSubmitAnswer rest
    else
      findSubmitAnswer rest

/-- extract_text from crates/autonav/src/adapter.rs: the first text
block. -/
def extractText : List ContentBlock → Option String
  | [] => none
  | .text t :: _ => some t
  | .toolUse _ _ _ :: rest => extractText rest
  | .toolResult _ _ :: rest => extractText rest

/-- create_answer_question_prompt from
crates/autonav-communication/src/prompts.rs. -/
def createAnswerQuestionPrompt (question : String) : String :=
  "Please answer the following question based on your knowledge base.\n\n**Question:** "
    ++ question
    ++ "\n\n**Requirements:**\n1. Search your knowledge base for relevant information\n2. Cite specific files and sections that support your answer\n3. Provide a confidence score (0-1) based on:\n   - 0.9-1.0: Direct answer found in documentation\n   - 0.7-0.9: Strong inference from multiple sources\n   - 0.5-0.7: Partial information available\n   - 0.3-0.5: Tangentially related information only\n   - 0.0-0.3: No relevant information found\n\nUse the `submit_answer` tool to provide your response.\n"

/-- The while loop of ClaudeAdapter::query from
crates/autonav/src/adapter.rs. The LLM endpoint is the model oracle (a
call_api outcome per conversation state); fuel is the number of turns
still allowed (max_turns minus turns taken), calls counts model calls made
so far. Returns the total number of model calls and the query result:
stop reason tool_use executes the tools (errors propagate), checks for a
submit_answer result, appends the assistant blocks and the batched tool
results, and continues; stop reason end_turn or absent falls back to the
first text block as an answer with confidence 0.5 and query set to the
question; any other stop reason breaks with no answer; a loop that ends
without a response produces the QueryError "No response generated". -/
def queryLoop (env : ToolEnv)
    (model : List Message → Except AutonavError ApiResponse)
    (question : String) :
    Nat → List Message → Nat → Nat × Except AutonavError NavigatorResponse
  | 0, _, calls => (calls, .error (.queryError "No response generated"))
  | fuel + 1, msgs, calls =>
    match model msgs with
    | .error e => (calls + 1, .error e)
    | .ok api =>
      match api.stopReason with
      | some s =>
        if s = "tool_use" then
          match handleToolCalls env api.content with
          | (.error e, _) => (calls + 1, .error e)
          | (.ok results, _) =>
            match findSubmitAnswer results with
            | some resp => (calls + 1, .ok resp)
            | none =>
              queryLoop env model question fuel
                (msgs ++ [{ role := "assistant", content := .blocks api.content },
                          { role := "user", content := .toolResults results }])
                (calls + 1)
        else if s = "end_turn" then
          endTurn env question api.content calls
        else
          (calls + 1, .error (.queryError "No response generated"))
      | none => endTurn env question api.content calls
where
  /-- The end_turn / missing stop reason arm: fall back to the first text
  block with fixed confidence 0.5, then break. -/
  endTurn (env : ToolEnv) (question : String)
      (content : List ContentBlock) (calls : Nat) :
      Nat × Except AutonavError NavigatorResponse :=
    match extractText content with
    | some text =>
      (calls + 1, .ok (NavigatorResponse.new question text 0.5 env.now))
    | none => (calls + 1, .error (.queryError "No response generated"))

/-- ClaudeAdapter::query from crates/autonav/src/adapter.rs, entered with
the initial user message built from the question template and a turn
budget of max_turns. -/
def adapterQuery (env : ToolEnv)
    (model : List Message → Except AutonavError ApiResponse)
    (maxTurns : Nat) (question : String) :
    Nat × Except AutonavError NavigatorResponse :=
  queryLoop env model question maxTurns
    [{ role := "user", content := .text (createAnswerQuestionPrompt question) }]
    0

/-- GitHubUrl from crates/autonav/src/pack_installer.rs, with strings as
character lists so the regex semantics can be reasoned about directly. -/
structure GitHubUrl where
  owner : List Char
  repo : List Char
  branch : Option (List Char)
  path : List Char
deriving DecidableEq

/-- Strip a literal pattern from the front of a character list. -/
def stripPre (pat l : List Char) : Option (List Char) :=
  match pat, l with
  | [], l => some l
  | _ :: _, [] => none
  | p :: ps, c :: cs => if p = c then stripPre ps cs else none

/-- Split a character list at its first slash; the part before the slash
(possibly empty) and the part after. None when there is no slash. -/
def splitSlash : List Char → Option (List Char × List Char)
  | [] => none
  | c :: rest =>
    if c = '/' then some ([], rest)
    else
      match splitSlash rest with
      | some (a, b) => some (c :: a, b)
      | none => none

/-- Match a regex fragment of the shape ([^/]+)/ at the front: a nonempty
run without slashes, then a slash, returning the run and the remainder. -/
def splitSeg (l : List Char) : Option (List Char × List Char) :=
  match splitSlash l with
  | some (a, b) => if a.isEmpty then none else some (a, b)
  | none => none

/-- Match the regex tail fragment of the shorthand form,
(.+?)(?:@(\x2e+))?$ : the lazy path group stops at the first position
(with a nonempty path before it) where an at-sign is followed by a
nonempty branch; otherwise the whole remainder is the path. p accumulates
the path read so far. -/
def tailScan (p r : List Char) : List Char × Option (List Char) :=
  match r with
  | [] => (p, none)
  | c :: rest =>
    if c = '@' && !rest.isEmpty then (p, some rest)
    else tailScan (p ++ [c]) rest

/-- The full-HTTPS arm of PackInstaller::parse_github_url, regex
https?://github com/([^/]+)/([^/]+)/tree/([^/]+)/(.+)$ (dot spelled out):
scheme, host, owner and repo segments, the literal tree segment, a branch
segment, then a nonempty path. -/
def parseHttps (l : List Char) : Option GitHubUrl :=
  match (match stripPre "https://github.com/".data l with
         | some r => some r
         | none => stripPre "http://github.com/".data l) with
  | none => none
  | some r0 =>
    match splitSeg r0 with
    | none => none
    | some (owner, r1) =>
      match splitSeg r1 with
      | none => none
      | some (repo, r2) =>
        match stripPre "tree/".data r2 with
        | none => none
        | some r3 =>
          match splitSeg r3 with
          | none => none
          | some (branch, path) =>
            if path.isEmpty then none
            else some { owner, repo, branch := some branch, path }

/-- The shorthand arm of PackInstaller::parse_github_url, regex
github:([^/]+)/([^/]+)/(.+?)(?:@(\x2e+))?$ : the github: scheme, owner and
repo segments, then the lazy path with an optional trailing branch. -/
def parseShorthand (l : List Char) : Option GitHubUrl :=
  match stripPre "github:".data l with
  | none => none
  | some r0 =>
    match splitSeg r0 with
    | none => none
    | some (owner, r1) =>
      match splitSeg r1 with
      | none => none
      | some (repo, tail) =>
        match tail with
        | [] => none
        | c :: rest =>
          let (path, branch) := tailScan [c] rest
          some { owner, repo, branch, path }

/-- The SSH arm of PackInstaller::parse_github_url, regex
git@github com:([^/]+)/([^/]+)/(.+)$ (dot spelled out). -/
def parseSsh (l : List Char) : Option GitHubUrl :=
  match stripPre "git@github.com:".data l with
  | none => none
  | some r0 =>
    match splitSeg r0 with
    | none => none
    | some (owner, r1) =>
      match splitSeg r1 with
      | none => none
      | some (repo, path) =>
        if path.isEmpty then none
        else some { owner, repo, branch := none, path }

/-- PackInstaller::parse_github_url from
crates/autonav/src/pack_installer.rs: try the full HTTPS form, then the
github: shorthand, then the SSH form. -/
def parseGithubUrl (l : List Char) : Option GitHubUrl :=
  match parseHttps l with
  | some u => some u
  | none =>
    match parseShorthand l with
    | some u => some u
    | none => parseSsh l

/-- The characters a parsed branch contributes to the shorthand: @branch
when present, nothing otherwise. -/
def branchSuffix : Option (List Char) → List Char
  | some b => '@' :: b
  | none => []

/-- Reconstruct the github: shorthand from parsed components:
github:owner/repo/path with @branch appended when a branch is present. -/
def reconstructShorthand (u : GitHubUrl) : List Char :=
  "github:".data ++ u.owner ++ '/' :: u.repo ++ '/' :: u.path ++
    branchSuffix u.branch

/-- The post-hoc validation section of QueryEngine::query from
crates/autonav/src/query_engine.rs: validate_sources_exist when the
validate_sources option is set, then validate_confidence when a threshold
is configured (the Rust code wraps the error into QueryError; the
underlying CommunicationError is returned here). -/
def queryPostValidation (fs : String → Bool) (validateSources : Bool)
    (confidenceThreshold : Option Rat) (response : NavigatorResponse)
    (knowledgeBasePath : String) : Except CommunicationError Unit :=
  match (if validateSources
         then validateSourcesExist fs response knowledgeBasePath
         else .ok ()) with
  | .error e => .error e
  | .ok _ =>
    match confidenceThreshold with
    | some threshold => validateConfidence response threshold
    | none => .ok ()

/-- The tool calls requested by a list of content blocks, in order. -/
def toolCallsOf : List ContentBlock → List (String × Json)
  | [] => []
  | .toolUse _ name input :: rest => (name, input) :: toolCallsOf rest
  | .text _ :: rest => toolCallsOf rest
  | .toolResult _ _ :: rest => toolCallsOf rest

/-- Fixture for the configuration-merge scenario of the spec: a persisted
slack sub-record that is disabled and watches the general channel. -/
def c1Slack : SlackConfig :=
  { SlackConfig.default with enabled := false, channels := ["general"] }

/-- Fixture: the persisted plugin configuration holding c1Slack. -/
def c1Persisted : PluginConfig :=
  { PluginConfig.default with slack := some c1Slack }

/-- Fixture: the partial update object of the merge scenario. -/
def c1Updates : Json := .obj [("enabled", .bool true)]

/-- Fixture: the full update_plugin_config input of the merge scenario. -/
def c1Input : Json :=
  .obj [("plugin", .str "slack"),
        ("updates", c1Updates),
        ("reason", .str "user asked to enable slack")]

/-- Fixture: an initialization oracle under which the slack plugin fails
to initialize and every other plugin initializes fine. -/
def c2Init : String → Except String Unit :=
  fun name => if name = "slack" then .error "authentication failed" else .ok ()

/-- Fixture: a plugin configuration with slack and github both enabled. -/
def c2Config : PluginConfig :=
  { PluginConfig.default with
    slack := some { SlackConfig.default with enabled := true }
    github := some { GitHubConfig.default with enabled := true } }

/-- Fixture: a filesystem on which exactly /etc/passwd and
kb/../secret.md exist. -/
def c4Fs : String → Bool :=
  fun p => p == "/etc/passwd" || p == "kb/../secret.md"

/-- Fixture: a response citing an absolute path and a parent-traversal
path, both existing on c4Fs. -/
def c4Response : NavigatorResponse :=
  { protocolVersion := PROTOCOL_VERSION
    query := "q"
    answer := "a"
    sources := [{ file := "/etc/passwd", sectionName := "s1",
                  relevance := "r1" },
                { file := "../secret.md", sectionName := "s2",
                  relevance := "r2" }]
    confidence := 0.9
    metadata := []
    timestamp := none }

/-- Fixture: a tool environment whose configuration tools always succeed
trivially and whose clock is fixed. -/
def fixedEnv : ToolEnv :=
  { now := "2026-10-12T00:00:00Z"
    getPluginConfigTool := fun _ => .ok (.obj [("success", .bool true)])
    updatePluginConfigTool := fun _ => .ok (.obj [("success", .bool true)]) }

/-- Fixture: a model that always requests a configuration tool call and
never submit_answer, with stop reason tool_use. -/
def c3Model : List Message → Except AutonavError ApiResponse :=
  fun _ =>
    .ok { content := [.toolUse "tu_1" "get_plugin_config"
                        (.obj [("plugin", .str "all")])]
          stopReason := some "tool_use" }

/-- Fixture: the question of the submit_answer scenario. -/
def c5Question : String := "How do I deploy?"

/-- Fixture: a well-formed submit_answer tool input. -/
def c5Input : Json :=
  .obj [("answer", .str "Run make deploy."),
        ("sources", .arr [.obj [("file", .str "docs/deploy.md"),
                                ("section", .str "Quick Start"),
                                ("relevance", .str "Contains the deploy command")]]),
        ("confidence", .num 0.9)]

/-- Fixture: a model that immediately submits a structured answer. -/
def c5Model : List Message → Except AutonavError ApiResponse :=
  fun _ =>
    .ok { content := [.toolUse "tu_1" "submit_answer" c5Input]
          stopReason := some "tool_use" }

/-- Fixture: the answer the adapter extracts from c5Input. -/
def c5Answer : NavigatorResponse :=
  { protocolVersion := PROTOCOL_VERSION
    query := ""
    answer := "Run make deploy."
    sources := [{ file := "docs/deploy.md", sectionName := "Quick Start",
                  relevance := "Contains the deploy command" }]
    confidence := 0.9
    metadata := []
    timestamp := some "2026-10-12T00:00:00Z" }

/-- Fixture: a submit_answer input with answer but neither confidence nor
well-formed sources. -/
def c6InputDefaults : Json :=
  .obj [("answer", .str "A"), ("sources", .str "not a list")]

/-- Fixture: a submit_answer input missing the answer field. -/
def c6InputNoAnswer : Json := .obj [("confidence", .num 1)]

/-- Fixture: the shorthand URL of the round-trip scenario. -/
def c9Url : List Char := "github:owner/repo/packs/my-pack@v1.0.0".data

/-- Fixture: the parse of c9Url. -/
def c9Parsed : GitHubUrl :=
  { owner := "owner".data
    repo := "repo".data
    branch := some "v1.0.0".data
    path := "packs/my-pack".data }

/-- Fixture: a tool-use turn whose second requested call names an unknown
tool and whose third call would succeed. -/
def c10Api : ApiResponse :=
  { content := [.toolUse "tu_1" "get_plugin_config" (.obj [("plugin", .str "all")]),
                .toolUse "tu_2" "bogus_tool" (.obj []),
                .toolUse "tu_3" "get_plugin_config" (.obj [("plugin", .str "slack")])]
    stopReason := some "tool_use" }

/-- Fixture: a model producing the c10Api turn. -/
def c10Model : List Message → Except AutonavError ApiResponse :=
  fun _ => .ok c10Api

/-- Sequential kind registration unfolds to a takeWhile of successful
initializations, with the first failing kind producing the error. -/
theorem loadKinds_eq (init : String → Except String Unit) :
    ∀ (ks reg : List String),
      loadKinds init reg ks =
        (reg ++ ks.takeWhile (initOk init),
         match ks.dropWhile (initOk init) with
         | [] => Except.ok ()
         | k :: _ =>
           Except.error
             (.initializationFailed (k ++ ": " ++ initErrMsg init k)))
  | [], reg => by simp [loadKinds]
  | k :: ks, reg => by
    cases hi : init k with
    | ok u =>
      have ih := loadKinds_eq init ks (reg ++ [k])
      have hk : initOk init k = true := by simp [initOk, hi]
      simp [loadKinds, registerPlugin, hi, ih, hk, List.takeWhile_cons,
        List.dropWhile_cons]
    | error e =>
      have hk : initOk init k = false := by simp [initOk, hi]
      simp [loadKinds, registerPlugin, hi, hk, List.takeWhile_cons,
        List.dropWhile_cons, initErrMsg]

/-- A per-kind layer of load_from_config, rewritten through the Bool
projection of the sub-record's enabled flag. -/
theorem slack_layer_eq (init : String → Except String Unit)
    (config : PluginConfig) (reg : List String) :
    (match config.slack with
     | some sc =>
       if sc.enabled then registerPlugin init reg "slack" else .ok reg
     | none => .ok reg) =
      (if slackEnabled config then registerPlugin init reg "slack"
       else .ok reg) := by
  rcases h : config.slack with _ | sc <;> simp [slackEnabled, h]

/-- The github layer of load_from_config through its Bool projection. -/
theorem github_layer_eq (init : String → Except String Unit)
    (config : PluginConfig) (reg : List String) :
    (match config.github with
     | some gc =>
       if gc.enabled then registerPlugin init reg "github" else .ok reg
     | none => .ok reg) =
      (if githubEnabled config then registerPlugin init reg "github"
       else .ok reg) := by
  rcases h : config.github with _ | gc <;> simp [githubEnabled, h]

/-- The file_watcher layer of load_from_config through its Bool
projection. -/
theorem file_watcher_layer_eq (init : String → Except String Unit)
    (config : PluginConfig) (reg : List String) :
    (match config.fileWatcher with
     | some fc =>
       if fc.enabled then registerPlugin init reg "file_watcher"
       else .ok reg
     | none => .ok reg) =
      (if fileWatcherEnabled config
       then registerPlugin init reg "file_watcher" else .ok reg) := by
  rcases h : config.fileWatcher with _ | fc <;> simp [fileWatcherEnabled, h]

/-- enabledKinds through the Bool projections. -/
theorem enabledKinds_eq (config : PluginConfig) :
    enabledKinds config =
      (if slackEnabled config then ["slack"] else []) ++
      (if githubEnabled config then ["github"] else []) ++
      (if fileWatcherEnabled config then ["file_watcher"] else []) := by
  rcases hs : config.slack with _ | sc <;>
    rcases hg : config.github with _ | gc <;>
      rcases hf : config.fileWatcher with _ | fc <;>
        simp [enabledKinds, slackEnabled, githubEnabled, fileWatcherEnabled,
          hs, hg, hf]

/-- load_from_config is the sequential registration of its enabled kinds
in the fixed slack, github, file_watcher order. -/
theorem loadFromConfig_eq_loadKinds (init : String → Except String Unit)
    (config : PluginConfig) :
    loadFromConfig init (.ok config) =
      loadKinds init [] (enabledKinds config) := by
  simp only [loadFromConfig, slack_layer_eq, github_layer_eq,
    file_watcher_layer_eq, enabledKinds_eq]
  cases h1 : slackEnabled config <;>
    cases h2 : githubEnabled config <;>
      cases h3 : fileWatcherEnabled config <;>
        cases hi1 : init "slack" <;>
          cases hi2 : init "github" <;>
            cases hi3 : init "file_watcher" <;>
              simp [loadKinds, registerPlugin, hi1, hi2, hi3]

/-- C1: update_plugin_config is supposed to shallow-merge the partial
update into the named plugin's sub-record, but the code merges into a
discarded temporary: on the spec's own scenario (persisted slack record
disabled with channels ["general"], update enabling it) the saved slack
sub-record still has enabled false and channels ["general"], even though
the shallow merge of the update into the persisted record (specMergedSlack)
has enabled true, and the tool still reports success. -/
theorem update_plugin_config_drops_updates :
    (updatePluginConfig c1Input (.loaded c1Persisted)).map (fun r => r.1.slack)
      = .ok (some c1Slack)
    ∧ c1Slack.enabled = false
    ∧ c1Slack.channels = ["general"]
    ∧ (specMergedSlack c1Persisted c1Updates).get "enabled"
        = some (.bool true)
    ∧ (specMergedSlack c1Persisted c1Updates).get "channels"
        = some (.arr [.str "general"])
    ∧ (updatePluginConfig c1Input (.loaded c1Persisted)).map
        (fun r => r.2.get "success") = .ok (some (.bool true)) :=
  ⟨rfl, rfl, rfl, rfl, rfl, rfl⟩

/-- C2 counterexample: with slack and github both enabled, slack failing
to initialize and github able to initialize, load_from_config returns the
slack failure with an empty registry — github was never registered, so one
kind's failure does prevent the remaining kinds from registering. -/
theorem load_from_config_failure_blocks_later_kinds :
    githubEnabled c2Config = true
    ∧ c2Init "github" = .ok ()
    ∧ loadFromConfig c2Init (.ok c2Config)
        = ([], .error (.initializationFailed "slack: authentication failed")) :=
  ⟨rfl, rfl, rfl⟩

/-- C2 (amended): when a plugin kind fails initialize during
load_from_config, the failure is surfaced to the caller as
InitializationFailed and the failing plugin is not registered; the enabled
kinds processed before it (in the fixed slack, github, file_watcher order)
remain registered, and the enabled kinds after the first failure are not
attempted. -/
theorem load_from_config_registers_up_to_first_failure
    (init : String → Except String Unit) (config : PluginConfig) :
    loadFromConfig init (.ok config) =
      ((enabledKinds config).takeWhile (initOk init),
       match (enabledKinds config).dropWhile (initOk init) with
       | [] => Except.ok ()
       | k :: _ =>
         Except.error
           (.initializationFailed (k ++ ": " ++ initErrMsg init k))) := by
  rw [loadFromConfig_eq_loadKinds, loadKinds_eq]
  simp

/-- C4: the post-hoc source validation actually applied to a query result
(validate_sources_exist, reached from QueryEngine::query) accepts a
response citing an absolute path and a parent-traversal path whenever the
joined paths exist on disk, even though both sources fail the (unused)
is_valid_source shape check — it does not reject such paths regardless of
existence. -/
theorem post_hoc_source_validation_ignores_path_shape :
    c4Response.sources.map isValidSource = [false, false]
    ∧ validateSourcesExist c4Fs c4Response "kb" = .ok ()
    ∧ queryPostValidation c4Fs true none c4Response "kb" = .ok () :=
  ⟨rfl, rfl, rfl⟩

/-- C8: the post-hoc confidence validation accepts a response exactly when
its confidence is at least the configured floor; in particular a
confidence equal to the floor is accepted. -/
theorem validate_confidence_accepts_iff (response : NavigatorResponse)
    (threshold : Rat) :
    (validateConfidence response threshold = .ok ()
      ↔ threshold ≤ response.confidence)
    ∧ (response.confidence = threshold →
        validateConfidence response threshold = .ok ()) := by
  constructor
  · unfold validateConfidence
    by_cases h : response.confidence < threshold
    · simp only [if_pos h]
      constructor
      · intro hcontra
        exact absurd hcontra (by simp)
      · intro hle
        exact absurd h (not_lt.mpr hle)
    · simp only [if_neg h]
      constructor
      · intro _
        exact not_lt.mp h
      · intro _
        trivial
  · intro he
    unfold validateConfidence
    rw [he]
    simp

/-- Witness for C8 at a concrete boundary input: a response whose
confidence equals the floor is accepted. -/
theorem validate_confidence_accepts_iff_witness :
    (NavigatorResponse.new "q" "a" 0.7 "t").confidence = 0.7
    ∧ validateConfidence (NavigatorResponse.new "q" "a" 0.7 "t") 0.7
        = .ok () :=
  ⟨rfl, (validate_confidence_accepts_iff
    (NavigatorResponse.new "q" "a" 0.7 "t") 0.7).2 rfl⟩

/-- C7: listen_all polls exactly the enabled registered plugins; an
erroring plugin contributes no events and does not abort collection, and
the returned list is the concatenation of every enabled plugin's
contributed batch (the batch itself on success, nothing on error) in
registry order, preserving each batch's internal order. -/
theorem listen_all_collects_enabled_batches
    (plugins : List RegisteredPlugin) :
    listenAll plugins =
      (((plugins.filter (fun p => p.enabled)).map listenEvents).flatten,
       (plugins.filter (fun p => p.enabled)).map RegisteredPlugin.name) := by
  induction plugins with
  | nil => rfl
  | cons p rest ih =>
    cases hp : p.enabled with
    | false => simp [listenAll, hp, ih, List.filter_cons]
    | true =>
      cases hr : p.listenResult with
      | ok events =>
        simp [listenAll, hp, hr, ih, listenEvents, List.filter_cons]
      | error e =>
        simp [listenAll, hp, hr, ih, listenEvents, List.filter_cons]

/-- C6: for a submit_answer tool input, a missing (or non-string) answer
field is a typed ToolError; with an answer present, a missing confidence
yields an answer with confidence 0.5, and missing or malformed sources
yield an answer with no sources rather than an error. -/
theorem submit_answer_input_handling (env : ToolEnv) (input : Json) :
    ((input.get "answer").bind Json.asStr = none →
      executeTool env "submit_answer" input
        = .error (.toolError "Missing answer field"))
    ∧ (∀ a, (input.get "answer").bind Json.asStr = some a →
        input.get "confidence" = none →
        ∃ r, executeTool env "submit_answer" input = .ok (navRespToJson r)
          ∧ r.answer = a ∧ r.confidence = 0.5)
    ∧ (∀ a, (input.get "answer").bind Json.asStr = some a →
        (input.get "sources" = none ∨
          ∃ v, input.get "sources" = some v ∧ sourcesListFromJson v = none) →
        ∃ r, executeTool env "submit_answer" input = .ok (navRespToJson r)
          ∧ r.answer = a ∧ r.sources = []) := by
  refine ⟨?_, ?_, ?_⟩
  · intro h
    simp [executeTool, h]
  · intro a ha hc
    refine ⟨{ protocolVersion := PROTOCOL_VERSION
              query := ""
              answer := a
              sources := ((input.get "sources").bind sourcesListFromJson).getD []
              confidence := 0.5
              metadata := []
              timestamp := some env.now }, ?_, rfl, rfl⟩
    simp [executeTool, ha, hc]
  · intro a ha hs
    have hsrc : ((input.get "sources").bind sourcesListFromJson).getD [] = [] := by
      rcases hs with h | ⟨v, hv, hp⟩
      · simp [h]
      · simp [hv, hp]
    refine ⟨{ protocolVersion := PROTOCOL_VERSION
              query := ""
              answer := a
              sources := []
              confidence := ((input.get "confidence").bind Json.asF64).getD 0.5
              metadata := []
              timestamp := some env.now }, ?_, rfl, rfl⟩
    simp [executeTool, ha, hsrc]

/-- Witness for C6 at concrete inputs: an input without answer errs; an
input with answer "A", no confidence and malformed sources produces an
answer with confidence 0.5 and no sources. -/
theorem submit_answer_input_handling_witness :
    executeTool fixedEnv "submit_answer" c6InputNoAnswer
        = .error (.toolError "Missing answer field")
    ∧ (∃ r, executeTool fixedEnv "submit_answer" c6InputDefaults
        = .ok (navRespToJson r) ∧ r.answer = "A" ∧ r.confidence = 0.5)
    ∧ (∃ r, executeTool fixedEnv "submit_answer" c6InputDefaults
        = .ok (navRespToJson r) ∧ r.answer = "A" ∧ r.sources = []) :=
  ⟨(submit_answer_input_handling fixedEnv c6InputNoAnswer).1 rfl,
   (submit_answer_input_handling fixedEnv c6InputDefaults).2.1 "A" rfl rfl,
   (submit_answer_input_handling fixedEnv c6InputDefaults).2.2 "A" rfl
     (Or.inr ⟨Json.str "not a list", rfl, rfl⟩)⟩

/-- When no result in the batch is named submit_answer, the scan finds
nothing. -/
theorem findSubmitAnswer_eq_none (results : List ToolResult)
    (h : ∀ r ∈ results, r.toolName ≠ "submit_answer") :
    findSubmitAnswer results = none := by
  induction results with
  | nil => rfl
  | cons r rest ih =>
    have hr : r.toolName ≠ "submit_answer" := h r (by simp)
    simp only [findSubmitAnswer, if_neg hr]
    exact ih (fun x hx => h x (by simp [hx]))

/-- Under a model that always stops with tool_use, whose tool calls all
succeed and never include submit_answer, the loop spends all its fuel,
making one model call per unit. -/
theorem queryLoop_exhausts (env : ToolEnv)
    (model : List Message → Except AutonavError ApiResponse)
    (question : String)
    (hmodel : ∀ msgs, ∃ api results tr, model msgs = .ok api ∧
      api.stopReason = some "tool_use" ∧
      handleToolCalls env api.content = (.ok results, tr) ∧
      ∀ r ∈ results, r.toolName ≠ "submit_answer") :
    ∀ (fuel : Nat) (msgs : List Message) (calls : Nat),
      queryLoop env model question fuel msgs calls
        = (calls + fuel, .error (.queryError "No response generated")) := by
  intro fuel
  induction fuel with
  | zero => intro msgs calls; simp [queryLoop]
  | succ n ih =>
    intro msgs calls
    obtain ⟨api, results, tr, hm, hs, hh, hn⟩ := hmodel msgs
    have hfind := findSubmitAnswer_eq_none results hn
    simp only [queryLoop, hm, hs, if_pos rfl, hh, hfind]
    rw [ih]
    simp only [if_true, Prod.mk.injEq, and_true]
    omega

/-- C3: for every turn budget N of at least one, a model that on every
turn stops with tool_use, whose requested tool calls all execute without
error and never include submit_answer, makes the adapter issue exactly N
model calls and then fail with the typed QueryError "No response
generated" — never N+1 calls and never a silent success. -/
theorem adapter_exhausts_turn_budget (env : ToolEnv)
    (model : List Message → Except AutonavError ApiResponse)
    (question : String) (N : Nat) (hN : 1 ≤ N)
    (hmodel : ∀ msgs, ∃ api results tr, model msgs = .ok api ∧
      api.stopReason = some "tool_use" ∧
      handleToolCalls env api.content = (.ok results, tr) ∧
      ∀ r ∈ results, r.toolName ≠ "submit_answer") :
    adapterQuery env model N question
      = (N, .error (.queryError "No response generated")) := by
  unfold adapterQuery
  rw [queryLoop_exhausts env model question hmodel]
  simp

/-- Witness for C3: with a turn budget of 3 and a model that always
requests a successful configuration tool call, the adapter makes exactly
3 calls and fails with the typed error. -/
theorem adapter_exhausts_turn_budget_witness :
    1 ≤ 3
    ∧ adapterQuery fixedEnv c3Model 3 "What is the deploy command?"
        = (3, .error (.queryError "No response generated")) :=
  ⟨by omega,
   adapter_exhausts_turn_budget fixedEnv c3Model
     "What is the deploy command?" 3 (by omega)
     (fun _ => ⟨_, _, _, rfl, rfl, rfl, by
       intro r hr
       rw [List.mem_singleton] at hr
       subst hr
       decide⟩)⟩

/-- C5: the adapter does terminate the loop in the same turn as a
well-formed submit_answer call and returns its answer text, sources and
confidence unchanged, but the returned answer's query field is the empty
string — the original question (here c5Question) is never copied in,
although an adjacent comment in execute_tool says the caller will fill
it. -/
theorem adapter_query_field_left_empty :
    adapterQuery fixedEnv c5Model 10 c5Question = (1, .ok c5Answer)
    ∧ c5Answer.answer = "Run make deploy."
    ∧ c5Answer.confidence = 0.9
    ∧ c5Answer.sources = [{ file := "docs/deploy.md"
                            sectionName := "Quick Start"
                            relevance := "Contains the deploy command" }]
    ∧ c5Answer.query = ""
    ∧ c5Question ≠ "" :=
  ⟨rfl, rfl, rfl, rfl, rfl, by decide⟩

/-- Tool execution of a turn whose calls succeed up to one failing call:
the failure aborts with exactly the successful prefix (and the failing
call itself) dispatched. -/
theorem handleToolCalls_error_of_append (env : ToolEnv)
    (pre post : List ContentBlock) (id name : String) (input : Json)
    (e : AutonavError)
    (hpre : ∀ i n inp, ContentBlock.toolUse i n inp ∈ pre →
      ∃ out, executeTool env n inp = .ok out)
    (hfail : executeTool env name input = .error e) :
    handleToolCalls env (pre ++ ContentBlock.toolUse id name input :: post)
      = (.error e, toolCallsOf pre ++ [(name, input)]) := by
  induction pre with
  | nil => simp [handleToolCalls, hfail, toolCallsOf]
  | cons b rest ih =>
    have ihrest := ih (fun i n inp h => hpre i n inp (by simp [h]))
    cases b with
    | text t => simpa [handleToolCalls, toolCallsOf] using ihrest
    | toolResult a c => simpa [handleToolCalls, toolCallsOf] using ihrest
    | toolUse i n inp =>
      obtain ⟨out, hout⟩ := hpre i n inp (by simp)
      simp [handleToolCalls, hout, ihrest, toolCallsOf]

/-- C10: when one requested tool call of a tool_use turn fails (the calls
before it succeeding), the adapter dispatches exactly the preceding calls
and the failing one — none of the later calls of the turn — and the whole
query aborts that turn with the tool's error: no tool results are
appended and no Answer is returned. -/
theorem tool_error_aborts_query (env : ToolEnv)
    (model : List Message → Except AutonavError ApiResponse)
    (question : String) (fuel calls : Nat) (msgs : List Message)
    (api : ApiResponse) (pre post : List ContentBlock)
    (id name : String) (input : Json) (e : AutonavError)
    (hmodel : model msgs = .ok api)
    (hstop : api.stopReason = some "tool_use")
    (hcontent : api.content = pre ++ ContentBlock.toolUse id name input :: post)
    (hpre : ∀ i n inp, ContentBlock.toolUse i n inp ∈ pre →
      ∃ out, executeTool env n inp = .ok out)
    (hfail : executeTool env name input = .error e) :
    handleToolCalls env api.content
      = (.error e, toolCallsOf pre ++ [(name, input)])
    ∧ queryLoop env model question (fuel + 1) msgs calls
      = (calls + 1, .error e) := by
  have hh := handleToolCalls_error_of_append env pre post id name input e
    hpre hfail
  rw [← hcontent] at hh
  refine ⟨hh, ?_⟩
  simp [queryLoop, hmodel, hstop, hh]

/-- Witness for C10: a turn requesting a successful configuration call,
then an unknown tool, then another configuration call, aborts the query
with the Unknown tool error; the dispatched trace stops at the unknown
tool and the third call is never executed. -/
theorem tool_error_aborts_query_witness :
    handleToolCalls fixedEnv c10Api.content
      = (.error (.toolError "Unknown tool: bogus_tool"),
         [("get_plugin_config", .obj [("plugin", .str "all")]),
          ("bogus_tool", .obj [])])
    ∧ queryLoop fixedEnv c10Model "q" 10 [] 0
      = (1, .error (.toolError "Unknown tool: bogus_tool")) :=
  tool_error_aborts_query fixedEnv c10Model "q" 9 0 [] c10Api
    [ContentBlock.toolUse "tu_1" "get_plugin_config"
      (.obj [("plugin", .str "all")])]
    [ContentBlock.toolUse "tu_3" "get_plugin_config"
      (.obj [("plugin", .str "slack")])]
    "tu_2" "bogus_tool" (.obj []) (.toolError "Unknown tool: bogus_tool")
    rfl rfl rfl
    (fun i n inp h => by
      rw [List.mem_singleton] at h
      injection h with h1 h2 h3
      subst h1
      subst h2
      subst h3
      exact ⟨_, rfl⟩)
    rfl

/-- Stripping a literal pattern from a list that starts with it leaves the
remainder. -/
theorem stripPre_append (pat r : List Char) :
    stripPre pat (pat ++ r) = some r := by
  induction pat with
  | nil => rfl
  | cons c cs ih => simp [stripPre, ih]

/-- A successful first-slash split reassembles to the input. -/
theorem splitSlash_eq : ∀ (l a b : List Char),
    splitSlash l = some (a, b) → l = a ++ '/' :: b
  | [], a, b => by intro h; cases h
  | c :: rest, a, b => by
    intro h
    unfold splitSlash at h
    split at h
    · rename_i hc
      simp only [Option.some.injEq, Prod.mk.injEq] at h
      obtain ⟨h1, h2⟩ := h
      subst h1
      subst h2
      subst hc
      rfl
    · cases hs : splitSlash rest with
      | none => rw [hs] at h; cases h
      | some p =>
        obtain ⟨a2, b2⟩ := p
        simp only [hs] at h
        simp only [Option.some.injEq, Prod.mk.injEq] at h
        obtain ⟨h1, h2⟩ := h
        subst h1
        subst h2
        have hrest := splitSlash_eq rest a2 b2 hs
        simp [hrest]

/-- A successful nonempty-segment split reassembles to the input. -/
theorem splitSeg_eq (l a b : List Char) (h : splitSeg l = some (a, b)) :
    l = a ++ '/' :: b := by
  unfold splitSeg at h
  cases hs : splitSlash l with
  | none => rw [hs] at h; cases h
  | some p =>
    obtain ⟨a2, b2⟩ := p
    simp only [hs] at h
    split at h
    · cases h
    · simp only [Option.some.injEq, Prod.mk.injEq] at h
      obtain ⟨h1, h2⟩ := h
      subst h1
      subst h2
      exact splitSlash_eq _ _ _ hs

/-- The lazy path/branch scan of the shorthand tail reassembles to the
input: accumulated path plus remaining characters equal the returned path
followed by the branch suffix. -/
theorem tailScan_eq : ∀ (r p path : List Char) (br : Option (List Char)),
    tailScan p r = (path, br) → p ++ r = path ++ branchSuffix br
  | [], p, path, br => by
    intro h
    unfold tailScan at h
    simp only [Prod.mk.injEq] at h
    obtain ⟨h1, h2⟩ := h
    subst h1
    subst h2
    simp [branchSuffix]
  | c :: rest, p, path, br => by
    intro h
    unfold tailScan at h
    split at h
    · rename_i hcond
      simp only [Bool.and_eq_true, decide_eq_true_eq, Bool.not_eq_eq_eq_not,
        Bool.not_true] at hcond
      obtain ⟨hceq, _⟩ := hcond
      simp only [Prod.mk.injEq] at h
      obtain ⟨h1, h2⟩ := h
      subst h1
      subst h2
      subst hceq
      simp [branchSuffix]
    · have hrec := tailScan_eq rest (p ++ [c]) path br h
      simpa [List.append_assoc] using hrec

/-- C9: parsing a github: shorthand source string with parse_github_url
and printing the parsed owner, repo, path and branch back as a shorthand
reproduces the input string exactly, so re-parsing the reconstruction
yields the same owner, repo, path and branch. -/
theorem parse_github_url_shorthand_roundtrip (l : List Char)
    (u : GitHubUrl) (h1 : ∃ rest, l = "github:".data ++ rest)
    (h2 : parseGithubUrl l = some u) :
    reconstructShorthand u = l
    ∧ parseGithubUrl (reconstructShorthand u) = some u := by
  obtain ⟨rest, hrest⟩ := h1
  subst hrest
  have hsh : parseShorthand ("github:".data ++ rest) = some u := by
    have hhttps : parseHttps ("github:".data ++ rest) = none := rfl
    have hssh : parseSsh ("github:".data ++ rest) = none := rfl
    unfold parseGithubUrl at h2
    rw [hhttps] at h2
    cases hx : parseShorthand ("github:".data ++ rest) with
    | none =>
      rw [hx] at h2
      simp only [hssh] at h2
      exact Option.noConfusion h2
    | some u2 =>
      rw [hx] at h2
      simp only [Option.some.injEq] at h2
      rw [← h2]
  unfold parseShorthand at hsh
  simp only [stripPre_append] at hsh
  cases hs1 : splitSeg rest with
  | none => simp [hs1] at hsh
  | some p1 =>
    obtain ⟨owner, r1⟩ := p1
    simp only [hs1] at hsh
    cases hs2 : splitSeg r1 with
    | none => simp [hs2] at hsh
    | some p2 =>
      obtain ⟨repo, tail⟩ := p2
      simp only [hs2] at hsh
      cases tail with
      | nil => simp at hsh
      | cons c rest2 =>
        rcases hts : tailScan [c] rest2 with ⟨path0, br0⟩
        simp only [hts, Option.some.injEq] at hsh
        have e1 := splitSeg_eq rest owner r1 hs1
        have e2 := splitSeg_eq r1 repo (c :: rest2) hs2
        have e3 := tailScan_eq rest2 [c] path0 br0 hts
        have hrec : reconstructShorthand u = "github:".data ++ rest := by
          rw [← hsh]
          unfold reconstructShorthand
          rw [e1, e2]
          simp only [List.singleton_append] at e3
          simp [← e3, List.append_assoc]
        exact ⟨hrec, by rw [hrec]; exact h2⟩

/-- Witness for C9 at a concrete shorthand with a branch:
github:owner/repo/packs/my-pack@v1.0.0 parses, reconstructs to itself, and
re-parses to the same components. -/
theorem parse_github_url_shorthand_roundtrip_witness :
    (∃ rest, c9Url = "github:".data ++ rest)
    ∧ parseGithubUrl c9Url = some c9Parsed
    ∧ reconstructShorthand c9Parsed = c9Url
    ∧ parseGithubUrl (reconstructShorthand c9Parsed) = some c9Parsed :=
  ⟨⟨"owner/repo/packs/my-pack@v1.0.0".data, rfl⟩, rfl,
   (parse_github_url_shorthand_roundtrip c9Url c9Parsed
     ⟨"owner/repo/packs/my-pack@v1.0.0".data, rfl⟩ rfl).1,
   (parse_github_url_shorthand_roundtrip c9Url c9Parsed
     ⟨"owner/repo/packs/my-pack@v1.0.0".data, rfl⟩ rfl).2⟩

end Autonav
